import Mathlib

/-!
# Verification of the vector buffering layer

A shallow embedding of `src/lib/vector-core/src/buffers/mod.rs` and
`src/src/buffers.rs`: the `DropWhenFull` admission decorator, the
`BufferInputCloner` write handle, the `Acker` acknowledgment handle, and
`BufferConfig` with its build and (de)serialization behaviour.

The cooperative-scheduling surface (`Poll`, sinks) is embedded by explicit
state passing: a sink is a state type together with transition functions, and
`Poll` is the two-valued readiness outcome of the Rust `std::task::Poll`.
-/

namespace VectorBuffers

/-- `std::task::Poll`: either a ready value or the suspend signal. -/
inductive Poll (α : Type) where
  | ready (a : α)
  | pending
deriving DecidableEq, Repr

/-- The abstract interface of an inner write endpoint (a `Sink` in the Rust
source): transition functions over an explicit state `σ`, with item type `T`
and error type `ε`.  `poll_ready`, `poll_flush` and `poll_close` may both
return a readiness outcome and update the state (the Rust methods take
`&mut self`); `start_send` either consumes the item into a new state or
fails. -/
structure SinkOps (σ T ε : Type) where
  poll_ready : σ → Poll (Except ε Unit) × σ
  start_send : σ → T → Except ε σ
  poll_flush : σ → Poll (Except ε Unit) × σ
  poll_close : σ → Poll (Except ε Unit) × σ

/-- `DropWhenFull<S>`: the admission decorator's state, one inner endpoint
state plus the boolean `drop` flag (`pending_drop` in the spec's words). -/
structure DropWhenFull (σ : Type) where
  inner : σ
  drop : Bool
deriving DecidableEq, Repr

namespace DropWhenFull

/-- `DropWhenFull::new`: wraps an inner endpoint with `drop` initially
`false`. -/
def new {σ : Type} (inner : σ) : DropWhenFull σ :=
  { inner := inner, drop := false }

/-- `<DropWhenFull<S> as Sink<T>>::poll_ready`: polls the inner endpoint;
on inner ready, clears `drop` and reports ready; on inner pending, sets
`drop` and reports ready anyway; on inner error, propagates the error and
leaves `drop` unchanged. -/
def poll_ready {σ T ε : Type} (ops : SinkOps σ T ε) (st : DropWhenFull σ) :
    Poll (Except ε Unit) × DropWhenFull σ :=
  match ops.poll_ready st.inner with
  | (.ready (.ok ()), s) => (.ready (.ok ()), { inner := s, drop := false })
  | (.pending, s) => (.ready (.ok ()), { inner := s, drop := true })
  | (.ready (.error e), s) => (.ready (.error e), { inner := s, drop := st.drop })

/-- `<DropWhenFull<S> as Sink<T>>::start_send`: if `drop` is set, the item
is discarded (a rate-limited debug event is emitted in the source) and
success is returned without touching the inner endpoint; otherwise the item
is forwarded to the inner endpoint's `start_send`. -/
def start_send {σ T ε : Type} (ops : SinkOps σ T ε) (st : DropWhenFull σ)
    (item : T) : Except ε (DropWhenFull σ) :=
  if st.drop then
    .ok st
  else
    (ops.start_send st.inner item).map fun s => { inner := s, drop := st.drop }

/-- `<DropWhenFull<S> as Sink<T>>::poll_flush`: forwarded unchanged. -/
def poll_flush {σ T ε : Type} (ops : SinkOps σ T ε) (st : DropWhenFull σ) :
    Poll (Except ε Unit) × DropWhenFull σ :=
  let (r, s) := ops.poll_flush st.inner
  (r, { inner := s, drop := st.drop })

/-- `<DropWhenFull<S> as Sink<T>>::poll_close`: forwarded unchanged. -/
def poll_close {σ T ε : Type} (ops : SinkOps σ T ε) (st : DropWhenFull σ) :
    Poll (Except ε Unit) × DropWhenFull σ :=
  let (r, s) := ops.poll_close st.inner
  (r, { inner := s, drop := st.drop })

end DropWhenFull

/-- A concrete inner endpoint whose readiness probe always reports ready and
whose sends are recorded in a list; used as a test instance. -/
def readyOps : SinkOps (List Nat) Nat Unit :=
  { poll_ready := fun s => (.ready (.ok ()), s)
    start_send := fun s x => .ok (s ++ [x])
    poll_flush := fun s => (.ready (.ok ()), s)
    poll_close := fun s => (.ready (.ok ()), s) }

/-- A concrete inner endpoint whose readiness probe always reports the
suspend signal; used as a test instance. -/
def pendingOps : SinkOps (List Nat) Nat Unit :=
  { poll_ready := fun s => (.pending, s)
    start_send := fun s x => .ok (s ++ [x])
    poll_flush := fun s => (.pending, s)
    poll_close := fun s => (.pending, s) }

/-- A concrete inner endpoint whose readiness probe always reports an error;
used as a test instance. -/
def errorOps : SinkOps (List Nat) Nat Unit :=
  { poll_ready := fun s => (.ready (.error ()), s)
    start_send := fun _ _ => .error ()
    poll_flush := fun s => (.ready (.error ()), s)
    poll_close := fun s => (.ready (.error ()), s) }

/-- Model of a `futures::channel::mpsc` bounded channel with a single
sender, as used by the repository's `drop_when_full` test
(`mpsc::channel(2)`).  The futures crate documents the channel's effective
capacity as `buffer + num_senders` — each sender holds one guaranteed slot —
so with one sender `poll_ready` reports ready while fewer than `cap + 1`
messages are queued.  `cap` is the `buffer` argument of `mpsc::channel`. -/
structure Channel where
  cap : Nat
  queue : List Nat
deriving DecidableEq, Repr

/-- `Sender::poll_ready` for the single-sender bounded channel: ready while
the queue holds fewer than `cap + 1` messages, otherwise the suspend
signal. -/
def Channel.poll_ready (c : Channel) : Poll (Except Unit Unit) × Channel :=
  if c.queue.length < c.cap + 1 then (.ready (.ok ()), c) else (.pending, c)

/-- `Sender::start_send`: enqueue the message at the back. -/
def Channel.start_send (c : Channel) (x : Nat) : Except Unit Channel :=
  .ok { c with queue := c.queue ++ [x] }

/-- `Receiver::poll_next`: pop the front message, or report the suspend
signal when the queue is empty (the sender side stays alive throughout the
embedded scenario). -/
def Channel.poll_next (c : Channel) : Poll (Option Nat) × Channel :=
  match c.queue with
  | [] => (.pending, c)
  | x :: rest => (.ready (some x), { c with queue := rest })

/-- The channel sender packaged as an inner write endpoint (the `tx` the
test hands to `DropWhenFull::new`). -/
def senderOps : SinkOps Channel Nat Unit :=
  { poll_ready := Channel.poll_ready
    start_send := Channel.start_send
    poll_flush := fun c => (.ready (.ok ()), c)
    poll_close := fun c => (.ready (.ok ()), c) }

/-- One producer step of the `drop_when_full` test: probe readiness of the
decorated endpoint, then submit the record. -/
def submitStep (st : DropWhenFull Channel) (x : Nat) : DropWhenFull Channel :=
  let st1 := (DropWhenFull.poll_ready senderOps st).2
  match DropWhenFull.start_send senderOps st1 x with
  | .ok st2 => st2
  | .error _ => st1

/-- Run the producer side of the `drop_when_full` test: wrap a fresh channel
of capacity `cap` in `DropWhenFull::new` and submit every record of `xs`,
probing readiness before each submission. -/
def submitAll (cap : Nat) (xs : List Nat) : DropWhenFull Channel :=
  xs.foldl submitStep (DropWhenFull.new { cap := cap, queue := [] })

/-- Drain the consumer side: perform `n` successive `poll_next` calls and
collect their outcomes. -/
def readAll : Channel → Nat → List (Poll (Option Nat))
  | _, 0 => []
  | c, n + 1 =>
    let (r, c2) := c.poll_next
    r :: readAll c2 n

/-- Modelled from the spec: the module `acker.rs` is declared by `mod.rs`
but its source is not part of the excerpt.  The model follows spec section
4.3 — a `Null` variant and a durable `Disk` variant holding the shared
acknowledged count and a registered waker — with the wake condition pinned
by the repository's own test `ack_with_none`, which asserts that `ack(0)`
does not wake the registered waker while `ack(1)` does.  Only the counter is
carried as state; the boolean returned by `ack` records whether the
registered waker was woken by that call. -/
inductive Acker where
  | Null
  | Disk (counter : Nat)
deriving DecidableEq, Repr

/-- `Acker::ack(num)`: for `Null` a no-op; for `Disk`, when `num` is
positive, advance the shared counter by `num` and wake the registered
waker; when `num` is zero, do nothing and wake nothing (the behaviour the
test `ack_with_none` asserts).  `ack` is total: it never raises an
error. -/
def Acker.ack : Acker → Nat → Acker × Bool
  | .Null, _ => (.Null, false)
  | .Disk counter, num =>
    if 0 < num then (.Disk (counter + num), true) else (.Disk counter, false)

/-- `WhenFull`: the overflow policy enum. -/
inductive WhenFull where
  | Block
  | DropNewest
deriving DecidableEq, Repr

/-- `impl Default for WhenFull`: the default policy is `Block`. -/
def WhenFull.default : WhenFull := .Block

/-- `mpsc::Sender<Event>`: the sending half of a bounded channel; `cap`
records the capacity the channel was allocated with. -/
structure Sender where
  cap : Nat
deriving DecidableEq, Repr

/-- `mpsc::Receiver<Event>`: the receiving half of the same channel. -/
structure Receiver where
  cap : Nat
deriving DecidableEq, Repr

/-- `disk::Writer`: the cloneable writer handle of the external durable
queue, opaque to this core. -/
structure DiskWriter where
  id : Nat
deriving DecidableEq, Repr

/-- The boxed read side returned by `BufferConfig::build`
(`Box<dyn Stream<Item = Event>>`): either the volatile channel's receiver or
the durable queue's reader. -/
inductive ReadSide where
  | channelReceiver (rx : Receiver)
  | diskReader (id : Nat)
deriving DecidableEq, Repr

/-- The inner write endpoint built by `BufferInputCloner::get` before the
decoration decision: for the `Memory` variant the cloned sender is wrapped
by `sink_map_err`, which converts send-errors into a logged error event
(`error!("Sender error.")`) instead of propagating them to the caller; for
the `Disk` variant the cloned writer is used directly. -/
inductive InnerEndpoint where
  | sinkMapErrLogged (tx : Sender)
  | diskWriter (w : DiskWriter)
deriving DecidableEq, Repr

/-- The boxed sink returned by `BufferInputCloner::get`
(`Box<dyn Sink<Event, Error = ()> + Send>`): the inner endpoint either plain
or wrapped in `DropWhenFull`. -/
inductive BoxedSink where
  | plain (inner : InnerEndpoint)
  | dropWhenFull (inner : InnerEndpoint)
deriving DecidableEq, Repr

/-- Whether a boxed sink is wrapped in the `DropWhenFull` decorator. -/
def BoxedSink.isDropWhenFull : BoxedSink → Bool
  | .plain _ => false
  | .dropWhenFull _ => true

/-- The inner endpoint of a boxed sink. -/
def BoxedSink.innerEndpoint : BoxedSink → InnerEndpoint
  | .plain inner => inner
  | .dropWhenFull inner => inner

/-- `BufferInputCloner`: the cloneable, polymorphic write handle. -/
inductive BufferInputCloner where
  | Memory (tx : Sender) (when_full : WhenFull)
  | Disk (writer : DiskWriter) (when_full : WhenFull)
deriving DecidableEq, Repr

/-- The policy stored in a write handle. -/
def BufferInputCloner.when_full : BufferInputCloner → WhenFull
  | .Memory _ wf => wf
  | .Disk _ wf => wf

/-- `BufferInputCloner::get`: clone the sender or writer (for the memory
variant, first wrap send-errors into a logged event via `sink_map_err`) and
wrap the result in `DropWhenFull` exactly when the policy is
`DropNewest`. -/
def BufferInputCloner.get : BufferInputCloner → BoxedSink
  | .Memory tx when_full =>
    let inner := InnerEndpoint.sinkMapErrLogged tx
    if when_full = .DropNewest then .dropWhenFull inner else .plain inner
  | .Disk writer when_full =>
    let inner := InnerEndpoint.diskWriter writer
    if when_full = .DropNewest then .dropWhenFull inner else .plain inner

/-- `BufferConfig`: the declarative configuration, a tagged union over the
`Memory` and `Disk` variants. -/
inductive BufferConfig where
  | Memory (max_events : Nat) (when_full : WhenFull)
  | Disk (max_size : Nat) (when_full : WhenFull)
deriving DecidableEq, Repr

/-- `BufferConfig::memory_max_events`: the default in-memory capacity. -/
def BufferConfig.memory_max_events : Nat := 500

/-- `mpsc::channel(buffer)`: allocate a fresh bounded channel of the given
capacity and return its two halves. -/
def mpsc_channel (buffer : Nat) : Sender × Receiver :=
  (⟨buffer⟩, ⟨buffer⟩)

/-- `BufferConfig::build`.  The external collaborator `disk::open` is passed
in as `openFn`, taking the data directory, the buffer subdirectory name and
the maximum byte size; `toStr` is the backend error's `to_string`.  The
`Memory` variant allocates a bounded channel of capacity `max_events` and
needs no data directory; the `Disk` variant requires the data directory,
derives the subdirectory name `"<sink_name>_buffer"` and delegates to
`openFn`, converting a backend error to its descriptive message. -/
def BufferConfig.build {ε : Type}
    (openFn : String → String → Nat → Except ε (DiskWriter × ReadSide × Acker))
    (toStr : ε → String) (cfg : BufferConfig) (data_dir : Option String)
    (sink_name : String) :
    Except String (BufferInputCloner × ReadSide × Acker) :=
  match cfg with
  | .Memory max_events when_full =>
    let (tx, rx) := mpsc_channel max_events
    .ok (.Memory tx when_full, .channelReceiver rx, .Null)
  | .Disk max_size when_full =>
    match data_dir with
    | none => .error "Must set data_dir to use on-disk buffering."
    | some dir =>
      let buffer_dir := sink_name ++ "_buffer"
      match openFn dir buffer_dir max_size with
      | .error e => .error (toStr e)
      | .ok (tx, rx, acker) => .ok (.Disk tx when_full, rx, acker)

/-- A primitive configuration value of the declarative format (TOML in the
repository's test): a string or an integer. -/
inductive TomlValue where
  | str (s : String)
  | int (n : Nat)
deriving DecidableEq, Repr

/-- A flat configuration table: key-value pairs, as the TOML snippets in the
repository's `config_default_values` test. -/
abbrev RawToml := List (String × TomlValue)

/-- Look up a key in a configuration table. -/
def lookupKey (t : RawToml) (k : String) : Option TomlValue :=
  (t.find? fun p => p.1 == k).map Prod.snd

/-- `#[serde(rename_all = "snake_case")]` on `WhenFull`: the serialized
variant names. -/
def WhenFull.toStr : WhenFull → String
  | .Block => "block"
  | .DropNewest => "drop_newest"

/-- Deserialization of a `WhenFull` variant name. -/
def WhenFull.fromStr : String → Option WhenFull
  | "block" => some .Block
  | "drop_newest" => some .DropNewest
  | _ => none

/-- Read the optional `when_full` field: absent means the `Default`
(`Block`); a present string must name a known variant. -/
def getWhenFullField (t : RawToml) : Except String WhenFull :=
  match lookupKey t "when_full" with
  | none => .ok WhenFull.default
  | some (.str s) =>
    match WhenFull.fromStr s with
    | some wf => .ok wf
    | none => .error ("unknown variant " ++ s ++ " for when_full")
  | some _ => .error "invalid type for when_full"

/-- Read an optional integer field, failing on a value of the wrong
type. -/
def getNatField (t : RawToml) (k : String) : Except String (Option Nat) :=
  match lookupKey t k with
  | none => .ok none
  | some (.int n) => .ok (some n)
  | some _ => .error ("invalid type for " ++ k)

/-- Deserialization of `BufferConfig`: internally tagged by the `type` key
(`#[serde(tag = "type")]`, `rename_all = "snake_case"`); for `memory` the
`max_events` field defaults to `BufferConfig::memory_max_events` and
`when_full` to its `Default`; for `disk` the `max_size` field is required
and `when_full` likewise defaults. -/
def BufferConfig.deserialize (t : RawToml) : Except String BufferConfig :=
  match lookupKey t "type" with
  | some (.str "memory") => do
    let me ← getNatField t "max_events"
    let wf ← getWhenFullField t
    pure (.Memory (me.getD BufferConfig.memory_max_events) wf)
  | some (.str "disk") => do
    match ← getNatField t "max_size" with
    | none => throw "missing field max_size"
    | some ms => do
      let wf ← getWhenFullField t
      pure (.Disk ms wf)
  | _ => .error "missing or invalid field type"

/-- Serialization of `BufferConfig`: the tag plus every field, defaulted or
not, in declaration order (serde serializes all fields). -/
def BufferConfig.serialize : BufferConfig → RawToml
  | .Memory max_events when_full =>
    [("type", .str "memory"), ("max_events", .int max_events),
     ("when_full", .str when_full.toStr)]
  | .Disk max_size when_full =>
    [("type", .str "disk"), ("max_size", .int max_size),
     ("when_full", .str when_full.toStr)]

/-- The records retained by the decorated endpoint are the first `cap + 1`
submissions: the channel's buffer plus the single sender's guaranteed
slot. -/
theorem submitAll_queue (cap : Nat) (xs : List Nat) :
    (submitAll cap xs).inner.queue = xs.take (cap + 1) := by
  have key : ∀ (ys q : List Nat) (d : Bool), q.length ≤ cap + 1 →
      (ys.foldl submitStep ⟨⟨cap, q⟩, d⟩).inner.queue =
        (q ++ ys).take (cap + 1) := by
    intro ys
    induction ys with
    | nil =>
      intro q d h
      simp [List.take_of_length_le h]
    | cons x ys ih =>
      intro q d h
      by_cases hq : q.length < cap + 1
      · have hstep : submitStep ⟨⟨cap, q⟩, d⟩ x = ⟨⟨cap, q ++ [x]⟩, false⟩ := by
          simp [submitStep, DropWhenFull.poll_ready, senderOps,
            Channel.poll_ready, hq, DropWhenFull.start_send,
            Channel.start_send, Except.map]
        rw [List.foldl_cons, hstep, ih (q ++ [x]) false (by simp; omega)]
        simp
      · have hlen : q.length = cap + 1 := le_antisymm h (not_lt.mp hq)
        have hstep : submitStep ⟨⟨cap, q⟩, d⟩ x = ⟨⟨cap, q⟩, true⟩ := by
          simp [submitStep, DropWhenFull.poll_ready, senderOps,
            Channel.poll_ready, hq, DropWhenFull.start_send]
        rw [List.foldl_cons, hstep, ih q true h]
        rw [List.take_append_of_le_length (by omega),
          List.take_append_of_le_length (by omega)]
  simpa [submitAll, DropWhenFull.new] using key xs [] false (by simp)

/-- Claim C1 counterexample: running the `drop_when_full` scenario of the
repository's own test — capacity 2, four submissions `[1, 2, 3, 4]` with a
readiness probe before each — the consumer observes the records 1, 2 and 3
before suspending, not exactly `{1, 2}` as claimed, and the number of
accepted records (3) differs from the channel capacity (2). -/
theorem C1_counterexample :
    readAll (submitAll 2 [1, 2, 3, 4]).inner 4 =
      [.ready (some 1), .ready (some 2), .ready (some 3), .pending] ∧
    (submitAll 2 [1, 2, 3, 4]).inner.queue ≠ [1, 2] ∧
    (submitAll 2 [1, 2, 3, 4]).inner.queue.length ≠ 2 := by
  decide

/-- Claim C1 (amended): for every capacity and submission sequence (probing
readiness before each submission, with no drain in between), the records
accepted equal the first `capacity + 1` submissions — the channel buffer
plus the single sender's guaranteed slot — and all later submissions vanish;
concretely, capacity 2 with submissions `[1, 2, 3, 4]` leaves the consumer
observing exactly 1, 2, 3 and then suspending on the fourth read. -/
theorem C1_amended :
    (∀ (cap : Nat) (xs : List Nat),
      (submitAll cap xs).inner.queue = xs.take (cap + 1)) ∧
    readAll (submitAll 2 [1, 2, 3, 4]).inner 4 =
      [.ready (some 1), .ready (some 2), .ready (some 3), .pending] :=
  ⟨submitAll_queue, by decide⟩

/-- Claim C2 counterexample: replaying the repository's `ack_with_none`
test — a durable acknowledger with a registered waker and counter 0 —
`ack 0` wakes nothing, contradicting the claim that an ack with value 0
still triggers exactly one wake; the subsequent `ack 1` does wake. -/
theorem C2_counterexample :
    (Acker.ack (.Disk 0) 0).2 = false ∧
    (Acker.ack ((Acker.ack (.Disk 0) 0).1) 1).2 = true := by
  decide

/-- Claim C2 (amended): for every durable acknowledger with a registered
waker, `ack` with a positive value — even one not exceeding the previous
acknowledgment point — advances the counter and triggers exactly one wake,
and never raises an error (`ack` is total); `ack 0` is a complete no-op: it
does not wake and leaves the counter unchanged. -/
theorem C2_amended (counter num : Nat) :
    (0 < num → Acker.ack (.Disk counter) num = (.Disk (counter + num), true)) ∧
    Acker.ack (.Disk counter) 0 = (.Disk counter, false) := by
  constructor
  · intro h
    simp [Acker.ack, h]
  · simp [Acker.ack]

/-- Witness for C2 (amended): acknowledging 1 when the counter already
stands at 5 (a value far below the previous acknowledgment point) still
wakes; acknowledging 0 does not. -/
theorem C2_amended_witness :
    Acker.ack (.Disk 5) 1 = (.Disk 6, true) ∧
    Acker.ack (.Disk 5) 0 = (.Disk 5, false) :=
  ⟨(C2_amended 5 1).1 (by decide), (C2_amended 5 0).2⟩

/-- Claim C3: For every inner endpoint state, `DropWhenFull.poll_ready` behaves
as: inner ready clears the `drop` flag and reports ready; inner pending sets
the `drop` flag and reports ready anyway; an inner error is propagated
unchanged with the `drop` flag left untouched. -/
theorem C3_poll_ready_cases {σ T ε : Type} (ops : SinkOps σ T ε)
    (st : DropWhenFull σ) :
    (∀ s, ops.poll_ready st.inner = (.ready (.ok ()), s) →
      DropWhenFull.poll_ready ops st = (.ready (.ok ()), ⟨s, false⟩)) ∧
    (∀ s, ops.poll_ready st.inner = (.pending, s) →
      DropWhenFull.poll_ready ops st = (.ready (.ok ()), ⟨s, true⟩)) ∧
    (∀ e s, ops.poll_ready st.inner = (.ready (.error e), s) →
      DropWhenFull.poll_ready ops st = (.ready (.error e), ⟨s, st.drop⟩)) := by
  refine ⟨fun s h => ?_, fun s h => ?_, fun e s h => ?_⟩ <;>
    simp [DropWhenFull.poll_ready, h]

/-- Witness for C3: the three readiness cases evaluated at concrete inner
endpoints. -/
theorem C3_poll_ready_cases_witness :
    DropWhenFull.poll_ready readyOps ⟨[], true⟩ =
      (.ready (.ok ()), ⟨[], false⟩) ∧
    DropWhenFull.poll_ready pendingOps ⟨[], false⟩ =
      (.ready (.ok ()), ⟨[], true⟩) ∧
    DropWhenFull.poll_ready errorOps ⟨[], false⟩ =
      (.ready (.error ()), ⟨[], false⟩) :=
  ⟨(C3_poll_ready_cases readyOps ⟨[], true⟩).1 [] rfl,
   (C3_poll_ready_cases pendingOps ⟨[], false⟩).2.1 [] rfl,
   (C3_poll_ready_cases errorOps ⟨[], false⟩).2.2 () [] rfl⟩

/-- Claim C4: `DropWhenFull.start_send`: when the `drop` flag is set the item
is discarded, success is returned and the inner endpoint is untouched (the
decorated state is returned unchanged, for every possible inner
`start_send`); when the flag is clear the item is forwarded to the inner
endpoint and its result returned. -/
theorem C4_start_send {σ T ε : Type} (ops : SinkOps σ T ε)
    (st : DropWhenFull σ) (item : T) :
    (st.drop = true → DropWhenFull.start_send ops st item = .ok st) ∧
    (st.drop = false → DropWhenFull.start_send ops st item =
      (ops.start_send st.inner item).map fun s => ⟨s, false⟩) := by
  constructor <;> intro h <;> simp [DropWhenFull.start_send, h]

/-- Witness for C4: both branches evaluated at a concrete endpoint: with the
flag set the item 7 is discarded and the inner list untouched; with the flag
clear it is appended. -/
theorem C4_start_send_witness :
    DropWhenFull.start_send readyOps ⟨[1, 2], true⟩ 7 = .ok ⟨[1, 2], true⟩ ∧
    DropWhenFull.start_send readyOps ⟨[1, 2], false⟩ 7 =
      .ok ⟨[1, 2, 7], false⟩ :=
  ⟨(C4_start_send readyOps ⟨[1, 2], true⟩ 7).1 rfl,
   ((C4_start_send readyOps ⟨[1, 2], false⟩ 7).2 rfl).trans (by rfl)⟩

/-- Claim C5: The decorated readiness probe never returns the suspend signal:
for every inner endpoint state, `DropWhenFull.poll_ready` returns a ready
outcome (success or an inner error), never `pending`. -/
theorem C5_never_pending {σ T ε : Type} (ops : SinkOps σ T ε)
    (st : DropWhenFull σ) :
    (DropWhenFull.poll_ready ops st).1 ≠ Poll.pending := by
  unfold DropWhenFull.poll_ready
  rcases h : ops.poll_ready st.inner with ⟨r, s⟩
  rcases r with a | _
  · rcases a with _ | e <;> simp
  · simp

/-- Claim C6: `BufferInputCloner::get` returns the endpoint wrapped in the
`DropWhenFull` decorator if and only if the handle's policy is `DropNewest`
(so a `Block` handle yields the plain endpoint), and for the volatile
(`Memory`) variant the inner endpoint is the cloned sender with send-errors
converted into a logged event rather than propagated, while the durable
variant uses the cloned writer directly. -/
theorem C6_get (bc : BufferInputCloner) :
    ((bc.get).isDropWhenFull = true ↔ bc.when_full = .DropNewest) ∧
    (∀ tx wf, bc = .Memory tx wf →
      (bc.get).innerEndpoint = .sinkMapErrLogged tx) ∧
    (∀ w wf, bc = .Disk w wf → (bc.get).innerEndpoint = .diskWriter w) := by
  rcases bc with ⟨tx, wf⟩ | ⟨w, wf⟩ <;> rcases wf <;>
    simp [BufferInputCloner.get, BufferInputCloner.when_full,
      BoxedSink.isDropWhenFull, BoxedSink.innerEndpoint]

/-- Witness for C6: evaluated at a concrete `Memory` handle with policy
`DropNewest`, the returned endpoint is decorated and its inner endpoint is
the log-wrapped sender. -/
theorem C6_get_witness :
    ((BufferInputCloner.Memory ⟨2⟩ .DropNewest).get.isDropWhenFull = true) ∧
    (BufferInputCloner.Memory ⟨2⟩ .DropNewest).get.innerEndpoint =
      .sinkMapErrLogged ⟨2⟩ :=
  ⟨(C6_get (.Memory ⟨2⟩ .DropNewest)).1.mpr rfl,
   (C6_get (.Memory ⟨2⟩ .DropNewest)).2.1 ⟨2⟩ .DropNewest rfl⟩

/-- Claim C7: for every `Memory{max_events, when_full}` configuration,
`build` succeeds — with or without a data directory — and returns the
volatile sender handle over a freshly allocated bounded channel of capacity
`max_events`, that channel's receiving half as the read side, and the `Null`
acknowledger. -/
theorem C7_memory_build {ε : Type}
    (openFn : String → String → Nat → Except ε (DiskWriter × ReadSide × Acker))
    (toStr : ε → String) (max_events : Nat) (when_full : WhenFull)
    (data_dir : Option String) (sink_name : String) :
    BufferConfig.build openFn toStr (.Memory max_events when_full) data_dir
        sink_name =
      .ok (.Memory (mpsc_channel max_events).1 when_full,
        .channelReceiver (mpsc_channel max_events).2, .Null) := by
  rfl

/-- Claim C8: for every `Disk` configuration, `build` with no data directory
fails with the missing-data-directory error for every possible `openFn` — so
the durable queue's open operation is never attempted — and with a directory
supplied it invokes the open operation on the subdirectory name
`"<sink_name>_buffer"`, converting an open failure into its descriptive
message. -/
theorem C8_disk_build {ε : Type} (max_size : Nat) (when_full : WhenFull)
    (sink_name : String) :
    (∀ (openFn : String → String → Nat →
        Except ε (DiskWriter × ReadSide × Acker)) (toStr : ε → String),
      BufferConfig.build openFn toStr (.Disk max_size when_full) none
          sink_name =
        .error "Must set data_dir to use on-disk buffering.") ∧
    (∀ (openFn : String → String → Nat →
        Except ε (DiskWriter × ReadSide × Acker)) (toStr : ε → String)
        (dir : String),
      BufferConfig.build openFn toStr (.Disk max_size when_full) (some dir)
          sink_name =
        match openFn dir (sink_name ++ "_buffer") max_size with
        | .error e => .error (toStr e)
        | .ok (tx, rx, acker) => .ok (.Disk tx when_full, rx, acker)) ∧
    (∀ (openFn : String → String → Nat →
        Except ε (DiskWriter × ReadSide × Acker)) (toStr : ε → String)
        (dir : String) (e : ε),
      openFn dir (sink_name ++ "_buffer") max_size = .error e →
        BufferConfig.build openFn toStr (.Disk max_size when_full)
          (some dir) sink_name = .error (toStr e)) := by
  refine ⟨fun openFn toStr => rfl, fun openFn toStr dir => rfl,
    fun openFn toStr dir e h => ?_⟩
  simp [BufferConfig.build, h]

/-- Witness for C8: with a concrete always-failing open operation, building
a disk configuration without a directory yields the missing-directory error,
and with a directory yields the backend's message. -/
theorem C8_disk_build_witness :
    BufferConfig.build (fun _ _ _ => .error "open failed")
        (id : String → String) (.Disk 1024 .Block) none "out" =
      .error "Must set data_dir to use on-disk buffering." ∧
    BufferConfig.build (fun _ _ _ => .error "open failed")
        (id : String → String) (.Disk 1024 .Block) (some "/tmp/data") "out" =
      .error "open failed" :=
  ⟨(C8_disk_build 1024 .Block "out").1 (fun _ _ _ => .error "open failed")
     (id : String → String),
   (C8_disk_build 1024 .Block "out").2.2 (fun _ _ _ => .error "open failed")
     (id : String → String) "/tmp/data" "open failed" rfl⟩

/-- Claim C9: configuration defaults round-trip: deserializing a memory
configuration carrying only the type discriminator yields
`{max_events: 500, when_full: Block}` and re-serializes identically to the
explicitly defaulted form, and a disk configuration carrying only
`max_size` defaults `when_full` to `Block`. -/
theorem C9_defaults_round_trip :
    BufferConfig.deserialize [("type", .str "memory")] =
      .ok (.Memory 500 .Block) ∧
    (BufferConfig.deserialize [("type", .str "memory")]).map
        BufferConfig.serialize =
      .ok (BufferConfig.serialize (.Memory 500 .Block)) ∧
    BufferConfig.deserialize [("type", .str "disk"), ("max_size", .int 1024)] =
      .ok (.Disk 1024 .Block) ∧
    (BufferConfig.deserialize
        [("type", .str "disk"), ("max_size", .int 1024)]).map
        BufferConfig.serialize =
      .ok (BufferConfig.serialize (.Disk 1024 .Block)) :=
  ⟨rfl, rfl, rfl, rfl⟩

/-- Claim C10: A freshly constructed decorator has its `drop` flag `false`, so a
submission made before any readiness probe is always forwarded to the inner
endpoint, never discarded. -/
theorem C10_new_forwards {σ T ε : Type} (ops : SinkOps σ T ε) (inner : σ)
    (item : T) :
    (DropWhenFull.new inner).drop = false ∧
    DropWhenFull.start_send ops (DropWhenFull.new inner) item =
      (ops.start_send inner item).map fun s => ⟨s, false⟩ := by
  exact ⟨rfl, by simp [DropWhenFull.new, DropWhenFull.start_send]⟩

end VectorBuffers
